import Mathlib

/-!
Shallow embedding of `src/librarian.py` (AssertionBit/librarian).

Python strings are modelled as `List Char`, Python `dict` literals as
association lists, raised exceptions as `Except PyError`, and the process-wide
mutable globals (`APP_CONFIG`, the `DocumentCell` id counter, the
`AppResources` catalog) as explicitly passed values.  Operating-system
collaborators (`os.walk`, `os.listdir`, plugin files opened with `pickle`)
are modelled as explicit inputs: a directory tree value and a map from file
path to deserialized object.
-/

-- ================================ Python basics ============================ --

deriving instance DecidableEq for Except

/-- Exceptions raised by the embedded code.  Python attaches extra positional
arguments (the offending dict, the cell id); only the message literal is kept
here. -/
inductive PyError where
  | valueError (msg : List Char)
  | typeError (msg : List Char)
  | keyError (key : List Char)
  | attributeError (msg : List Char)
deriving DecidableEq

/-- Values stored in a `DocumentCell.additional_content` dict: the source only
ever stores strings and booleans there. -/
inductive PyValue where
  | str (s : List Char)
  | bool (b : Bool)
deriving DecidableEq

/-- Python `str.startswith` / list-prefix test, written out structurally so
that it evaluates by kernel reduction. -/
def isPrefixList : List Char → List Char → Bool
  | [], _ => true
  | _ :: _, [] => false
  | a :: as, b :: bs => a == b && isPrefixList as bs

/-- Python substring containment `needle in haystack` for strings. -/
def pySubstr (needle : List Char) : List Char → Bool
  | [] => isPrefixList needle []
  | c :: rest => isPrefixList needle (c :: rest) || pySubstr needle rest

theorem isPrefixList_append (p l t : List Char) (h : isPrefixList p l = true) :
    isPrefixList p (l ++ t) = true := by
  induction p generalizing l with
  | nil => simp [isPrefixList]
  | cons a as ih =>
    cases l with
    | nil => simp [isPrefixList] at h
    | cons b bs =>
      simp only [isPrefixList, Bool.and_eq_true] at h ⊢
      exact ⟨h.1, ih bs h.2⟩

theorem pySubstr_append (c l t : List Char) (h : pySubstr c l = true) :
    pySubstr c (l ++ t) = true := by
  induction l with
  | nil =>
    cases c with
    | nil =>
      cases t with
      | nil => simpa using h
      | cons x xs => simp [pySubstr, isPrefixList]
    | cons y ys => simp [pySubstr, isPrefixList] at h
  | cons x xs ih =>
    simp only [pySubstr, Bool.or_eq_true] at h ⊢
    cases h with
    | inl h => exact Or.inl (isPrefixList_append _ _ _ h)
    | inr h => exact Or.inr (ih h)

theorem isPrefixList_iff_exists (p q : List Char) :
    isPrefixList p q = true ↔ ∃ t, q = p ++ t := by
  induction p generalizing q with
  | nil => simp [isPrefixList]
  | cons a as ih =>
    cases q with
    | nil =>
      simp [isPrefixList]
    | cons b bs =>
      simp only [isPrefixList, Bool.and_eq_true, beq_iff_eq, ih]
      constructor
      · rintro ⟨hab, t, ht⟩
        exact ⟨t, by simp [hab, ht]⟩
      · rintro ⟨t, ht⟩
        simp only [List.cons_append, List.cons.injEq] at ht
        exact ⟨ht.1.symm ▸ rfl, t, ht.2⟩

/-- If a needle occurs inside a path `p`, it occurs inside every extension of
`p`: the substring test is monotone under taking longer paths. -/
theorem pySubstr_mono_of_prefix (c p q : List Char)
    (hsub : pySubstr c p = true) (hpre : isPrefixList p q = true) :
    pySubstr c q = true := by
  obtain ⟨t, ht⟩ := (isPrefixList_iff_exists p q).mp hpre
  subst ht
  exact pySubstr_append _ _ _ hsub

-- =============================== File system =============================== --

/-- Directory tree handed to the scanner; stands for the part of the file
system that `os.walk` / `os.listdir` expose: each directory has a name, a list
of plain files and a list of subdirectories. -/
inductive FSTree where
  | mk (name : List Char) (files : List (List Char)) (subs : List FSTree)

def FSTree.name : FSTree → List Char
  | .mk n _ _ => n

def FSTree.files : FSTree → List (List Char)
  | .mk _ f _ => f

def FSTree.subs : FSTree → List FSTree
  | .mk _ _ s => s

/-- Python `os.listdir(path)`: names of all entries (files and directories)
directly inside the directory. -/
def FSTree.listdir (t : FSTree) : List (List Char) :=
  t.files ++ t.subs.map FSTree.name

mutual

/-- Python `os.walk(path)` restricted to the `(dirpath, filenames)` pair the
source consumes: top-down traversal, the argument path itself first, each
subdirectory path formed by `os.path.join` with the `/` separator. -/
def FSTree.walk : List Char → FSTree → List (List Char × List (List Char))
  | base, .mk _ files subs => (base, files) :: FSTree.walkSubs base subs

def FSTree.walkSubs : List Char → List FSTree → List (List Char × List (List Char))
  | _, [] => []
  | base, t :: ts => FSTree.walk (base ++ '/' :: t.name) t ++ FSTree.walkSubs base ts

end

-- ================================= CONSTANTS =============================== --

/-- Cache/build folder names pruned from scanning (`CACHE_FOLDERS`). -/
def CACHE_FOLDERS : List (List Char) :=
  [".tox".toList, ".mypy_cache".toList, ".egg-info".toList, ".pytest_cache".toList]

-- =================================== RUNTIME =============================== --

/-- Configuration of a single run (`AppConfig`).  Its `__post_init__` only
prints warnings, so no validation is modelled. -/
structure AppConfig where
  home_dir : List Char
  force_install : Bool
  ignore_compromised : Bool
  always_yes : Bool
  verbose : Bool
deriving DecidableEq

-- ============================= EXACT DATA TYPES ============================ --

/-- Cell kinds of the document model (`DocumentCellType`): the enum is built
from the literal list plus `header_1 .. header_10`. -/
inductive DocumentCellType where
  | paragraph
  | link_text
  | link_external
  | table
  | code
  | image
  | field
  | header_1
  | header_2
  | header_3
  | header_4
  | header_5
  | header_6
  | header_7
  | header_8
  | header_9
  | header_10
deriving DecidableEq

/-- Python `_id_generator`: increments the process-wide `_ID_COUNTER` and
returns it.  The global counter is threaded explicitly: the result is the new
counter value paired with the generated id. -/
def id_generator (counter : Nat) : Nat × Nat :=
  (counter + 1, counter + 1)

/-- One documentation cell (`DocumentCell`).  The `additional_content` dict is
an association list; `id` comes from the process-wide counter. -/
structure DocumentCell where
  raw_content : List Char
  additional_content : List (List Char × PyValue)
  id : Nat
  type : DocumentCellType
deriving DecidableEq

/-- Python `key in d.keys()` on an `additional_content` dict. -/
def hasKey (d : List (List Char × PyValue)) (k : List Char) : Bool :=
  d.any (fun kv => kv.1 == k)

/-- Python `d[k]` on an `additional_content` dict: `KeyError` when absent. -/
def dictGetE (d : List (List Char × PyValue)) (k : List Char) : Except PyError PyValue :=
  match d.find? (fun kv => kv.1 == k) with
  | some kv => Except.ok kv.2
  | none => Except.error (PyError.keyError k)

/-- Python `v.startswith(pre)`: on a non-string value the attribute access
raises `AttributeError`. -/
def PyValue.startswith : PyValue → List Char → Except PyError Bool
  | PyValue.str s, pre => Except.ok (isPrefixList pre s)
  | PyValue.bool _, _ =>
      Except.error (PyError.attributeError ("bool object has no attribute startswith".toList))

def fieldErrMsg : List Char := "Fields must contain name and text label".toList

def targetErrMsg : List Char := "Links must contain target information!".toList

def httpsErrMsg : List Char := "External links must contain https schema".toList

def codeErrMsg : List Char := "Code sections must contain language, at least empty key".toList

def imageErrMsg : List Char := "Images must contain link to source, at least network".toList

/-- Trailing checks of `DocumentCell.__post_init__` (the `code` and `image`
requirements) followed by the successful construction. -/
def DocumentCell.check_tail (c : DocumentCell) : Except PyError DocumentCell :=
  if c.type = DocumentCellType.code ∧ hasKey c.additional_content ("lang".toList) = false then
    Except.error (PyError.valueError codeErrMsg)
  else if c.type = DocumentCellType.image ∧ hasKey c.additional_content ("src".toList) = false then
    Except.error (PyError.valueError imageErrMsg)
  else
    Except.ok c

/-- Validation of `DocumentCell.__post_init__`, run as part of construction.
The checks run in source order; the first failing check raises. -/
def DocumentCell.post_init (cfg : AppConfig) (c : DocumentCell) : Except PyError DocumentCell :=
  if c.type = DocumentCellType.field ∧
      (hasKey c.additional_content ("name".toList) = false ∨
        hasKey c.additional_content ("label".toList) = false) then
    Except.error (PyError.valueError fieldErrMsg)
  else if (c.type = DocumentCellType.link_text ∨ c.type = DocumentCellType.link_external) ∧
      hasKey c.additional_content ("target".toList) = false then
    Except.error (PyError.valueError targetErrMsg)
  else if c.type = DocumentCellType.link_external then
    match dictGetE c.additional_content ("target".toList) with
    | Except.error e => Except.error e
    | Except.ok v =>
      match v.startswith ("https".toList) with
      | Except.error e => Except.error e
      | Except.ok sw =>
        if sw = false ∧ cfg.force_install = false then
          Except.error (PyError.valueError httpsErrMsg)
        else
          DocumentCell.check_tail c
  else
    DocumentCell.check_tail c

/-- Construction `DocumentCell(...)`: the dataclass constructor runs
`__post_init__`, so construction either yields the cell or raises.  The id the
global counter would hand out is passed explicitly. -/
def DocumentCell.make (cfg : AppConfig) (raw_content : List Char)
    (additional_content : List (List Char × PyValue)) (idv : Nat)
    (type : DocumentCellType) : Except PyError DocumentCell :=
  DocumentCell.post_init cfg
    { raw_content := raw_content, additional_content := additional_content,
      id := idv, type := type }

/-- Convenience constructor `DocumentCell.create_paragraph`. -/
def DocumentCell.create_paragraph (cfg : AppConfig) (idv : Nat) (text : List Char)
    (centralized : Bool) : Except PyError DocumentCell :=
  DocumentCell.make cfg text [(("centralize".toList), PyValue.bool centralized)] idv
    DocumentCellType.paragraph

/-- Convenience constructor `DocumentCell.create_text_link`: note that the
link target (Python parameter `to`, a reserved word here, hence `to_arg`) is
stored under the key `to`. -/
def DocumentCell.create_text_link (cfg : AppConfig) (idv : Nat) (text to_arg : List Char)
    (as_class as_text : Bool) : Except PyError DocumentCell :=
  DocumentCell.make cfg text
    [(("to".toList), PyValue.str to_arg),
     (("as_class".toList), PyValue.bool as_class),
     (("as_text".toList), PyValue.bool as_text)]
    idv DocumentCellType.link_text

/-- Convenience constructor `DocumentCell.create_external_link`: the guarded
block under `if not APP_CONFIG.ignore_compromised` is an empty TODO in the
source and adds no behaviour; the target is likewise stored under `to`. -/
def DocumentCell.create_external_link (cfg : AppConfig) (idv : Nat) (text to_arg : List Char)
    (as_class as_text to_twitter to_meta to_github to_gitlab to_vk to_email to_slack : Bool) :
    Except PyError DocumentCell :=
  DocumentCell.make cfg text
    [(("to".toList), PyValue.str to_arg),
     (("as_class".toList), PyValue.bool as_class),
     (("as_text".toList), PyValue.bool as_text),
     (("to_twitter".toList), PyValue.bool to_twitter),
     (("to_meta".toList), PyValue.bool to_meta),
     (("to_github".toList), PyValue.bool to_github),
     (("to_gitlab".toList), PyValue.bool to_gitlab),
     (("to_vk".toList), PyValue.bool to_vk),
     (("to_email".toList), PyValue.bool to_email),
     (("to_slack".toList), PyValue.bool to_slack)]
    idv DocumentCellType.link_external

-- =========================== VENDORS & DEPENDENCIES ======================== --

/-- Vendor capability (`Vendor`): its data attributes.  The `find` overloads on
the base class are abstract declarations without bodies. -/
structure Vendor where
  _name : List Char
  _version : List Char
  _is_secure : List Char
  _login_method : List Char
  _credentials : List (List Char × List Char)
deriving DecidableEq

/-- Local vendor (`LocalVendor`): adds the registered search locations. -/
structure LocalVendor extends Vendor where
  _locations : List (List Char)
deriving DecidableEq

/-- Resolved package reference (`Dependency`).  Its `__post_init__` is an empty
TODO in the source. -/
structure Dependency where
  name : List Char
  version : List Char
  vendor : Vendor
  license : List Char
  machine_name : List Char
  description : List Char
deriving DecidableEq

/-- Values handed to `json.dumps` by `Dependency.to_json`: strings and, due to
the source passing `self.vendor` as the `version` value, a raw `Vendor`
object. -/
inductive JsonDumpVal where
  | str (s : List Char)
  | vendorObj (v : Vendor)
deriving DecidableEq

/-- Python `json.dumps` on a flat dict, modelled as the serialized object (the
mapping of key to string value) rather than its textual rendering: a string
value serializes; a `Vendor` object is not JSON serializable and raises
`TypeError`. -/
def json_dumps : List (List Char × JsonDumpVal) → Except PyError (List (List Char × List Char))
  | [] => Except.ok []
  | (k, JsonDumpVal.str s) :: rest =>
    match json_dumps rest with
    | Except.ok tail => Except.ok ((k, s) :: tail)
    | Except.error e => Except.error e
  | (_, JsonDumpVal.vendorObj _) :: _ =>
    Except.error (PyError.typeError ("Object of type Vendor is not JSON serializable".toList))

/-- Serialization `Dependency.to_json`: the source passes `self.vendor` (the
`Vendor` object) as the value of the `version` key. -/
def Dependency.to_json (d : Dependency) : Except PyError (List (List Char × List Char)) :=
  json_dumps
    [(("name".toList), JsonDumpVal.str d.name),
     (("version".toList), JsonDumpVal.vendorObj d.vendor),
     (("vendor".toList), JsonDumpVal.str d.vendor._name),
     (("license".toList), JsonDumpVal.str d.license)]

/-- Modelled from the spec: `LocalVendor.find` exists in the source only as
abstract `@overload` declarations with no body (src/librarian.py lines
476-516), so the concrete search is modelled from the spec's Local-variant
contract: "searches only the registered local search paths; never performs
network I/O; treats not found in any registered path as none, not an error".
The packages installed under each search path are an explicit input; an
omitted version constraint accepts any version. -/
def LocalVendor.find (v : LocalVendor) (installed : List Char → List Dependency)
    (name : List Char) (version : Option (List Char)) : Option Dependency :=
  (v._locations.foldl (fun acc p => acc ++ installed p) []).find?
    (fun d =>
      d.name == name &&
        match version with
        | none => true
        | some ver => d.version == ver)

-- ============================== LANGUAGE SPECS ============================= --

/-- Language descriptor (`LanguageSpecs`): its data attributes.  The callback
attributes (`on_start`, `is_language`, `project_files_loaders`,
`project_loader`, `parse_documentation`, `additional_files_loaded`,
`project_files_data_loaders`, `advanced_documentation_loaded`) are Python
callables; none of the registry or scanner operations verified here read
them, so they are not part of the embedded record. -/
structure LanguageSpecs where
  language_name : List Char
  file_extensions : List (List Char)
  comments : List (List Char)
  is_docs_after_func : Bool
  project_files : List (List Char)
  vendors_API : List Vendor
deriving DecidableEq

/-- Discovered project root (`Module` in the source; named `PyModule` here
because Mathlib already owns the name `Module`).  The source annotates
`language_specs : LanguageSpecs` but `load_module` passes `None`, hence the
`Option`.  The raw dependency declarations are dicts of strings. -/
structure PyModule where
  name : List Char
  language : List Char
  language_specs : Option LanguageSpecs
  project_files : List (List Char)
  dependencies : List (List (List Char × List Char))
deriving DecidableEq

-- ============================= FS FUNCTIONALITY ============================ --

/-- Conversion of one discovered path into a Module (`load_module`):
`Module(path, path, None)` with the remaining fields left at their dataclass
defaults. -/
def load_module (path : List Char) : PyModule :=
  { name := path, language := path, language_specs := none,
    project_files := [], dependencies := [] }

/-- Filter applied to each walked directory by `load_project`: skip when any
cache folder name occurs in the directory path, keep when `README.md` is among
the files. -/
def scanKeep (pr : List Char × List (List Char)) : Bool :=
  !(CACHE_FOLDERS.any (fun cache_folder => pySubstr cache_folder pr.1)) &&
    pr.2.contains ("README.md".toList)

/-- Project scan (`load_project`): requires `README.md` in the top-level
directory listing, walks the tree, records every non-skipped directory whose
files contain `README.md`, and converts each recorded path with
`load_module`. -/
def load_project (path : List Char) (t : FSTree) : Except PyError (List PyModule) :=
  if ("README.md".toList) ∈ t.listdir then
    Except.ok (((FSTree.walk path t).filter scanKeep).map (fun pr => load_module pr.1))
  else
    Except.error (PyError.valueError ("Path no containing README.md".toList))

-- ============================== APP RESOURCES ============================== --

/-- One entry of the plugin manifest (`data["plugins"]` in `resources.toml`). -/
structure PluginEntry where
  name : List Char
  version : List Char
  vendor : List Char
  timestamp : List Char
deriving DecidableEq

/-- Plugin descriptor path `os.path.join(home_dir, "plugins", name + ".obj")`. -/
def pluginPath (home_dir : List Char) (pluginName : List Char) : List Char :=
  home_dir ++ '/' :: ("plugins".toList) ++ '/' :: (pluginName ++ (".obj".toList))

/-- Runtime resource catalog (`AppResources`): the loaded language specs and
plugin vendors. -/
structure AppResources where
  _languages : List LanguageSpecs
  _plugin_vendor : List Vendor
deriving DecidableEq

/-- Plugin loading of `AppResources.__init__`.  The prior catalog state is the
class attribute `_languages`, passed explicitly; the plugin files on disk are
the map `fs` from path to deserialized `LanguageSpecs` (`none` models
`FileNotFoundError` from `open`).  On a missing file the handler executes
`data.pop(plugin)` whose key, the `plugin` dict, is unhashable: Python raises
`TypeError` there, before any reinstall prompt, so the whole load aborts. -/
def AppResources.init (cfg : AppConfig) (fs : List Char → Option LanguageSpecs) :
    AppResources → List PluginEntry → Except PyError AppResources
  | r, [] => Except.ok r
  | r, p :: rest =>
    match fs (pluginPath cfg.home_dir p.name) with
    | some spec =>
      AppResources.init cfg fs
        { r with _languages := r._languages ++ [spec] } rest
    | none => Except.error (PyError.typeError ("unhashable type: dict".toList))

/-- Python `str.lower` on the character lists used here. -/
def pyLower (s : List Char) : List Char :=
  s.map Char.toLower

/-- Registry query `AppResources.get_all_languages`: lowercased names. -/
def AppResources.get_all_languages (r : AppResources) : List (List Char) :=
  r._languages.map (fun lang => pyLower lang.language_name)

/-- Registry query `AppResources.is_language_exists`: Python membership of the
query string in the lowercased name list. -/
def AppResources.is_language_exists (r : AppResources) (lang : List Char) : Bool :=
  decide (lang ∈ r.get_all_languages)

/-- Registry query `AppResources.get_all_file_extensions`: the extension lists
of all loaded specs concatenated in load order. -/
def AppResources.get_all_file_extensions (r : AppResources) : List (List Char) :=
  r._languages.foldl (fun result lang => result ++ lang.file_extensions) []

/-- Registry query `AppResources.get_all_project_files`: the project marker
file lists of all loaded specs concatenated in load order. -/
def AppResources.get_all_project_files (r : AppResources) : List (List Char) :=
  r._languages.foldl (fun result lang => result ++ lang.project_files) []

-- ============================ CONCRETE SCENARIOS =========================== --

/-- Scan scenario of the spec: a root directory holding `README.md` plus
subdirectories `lib` (with `README.md`) and `.pytest_cache` (with
`README.md`). -/
def scenarioTree : FSTree :=
  FSTree.mk ("proj".toList)
    [("README.md".toList)]
    [FSTree.mk ("lib".toList) [("README.md".toList)] [],
     FSTree.mk (".pytest_cache".toList) [("README.md".toList)] []]

/-- Language spec used in counterexamples: it claims the `README.md` marker
file. -/
def readmeSpec : LanguageSpecs :=
  { language_name := "markdown".toList, file_extensions := [(".md".toList)],
    comments := [], is_docs_after_func := false,
    project_files := [("README.md".toList)], vendors_API := [] }

/-- Configuration used in concrete scenarios: all flags off. -/
def cfgHome : AppConfig :=
  { home_dir := "/home/user/.librarian".toList, force_install := false,
    ignore_compromised := false, always_yes := false, verbose := false }

/-- Configuration with the force flag set. -/
def cfgForce : AppConfig :=
  { home_dir := "/home/user/.librarian".toList, force_install := true,
    ignore_compromised := false, always_yes := false, verbose := false }

-- ================================= THEOREMS ================================ --

/-- Claim C1 counterexample: on the scenario tree (root with `README.md`,
subdirectories `lib/README.md` and `.pytest_cache/README.md`) `load_project`
returns two modules, the scan root itself and `lib`; it does not return
exactly one module at `lib`. -/
theorem scan_scenario_two_modules :
    load_project ("proj".toList) scenarioTree =
      Except.ok [load_module ("proj".toList), load_module ("proj/lib".toList)] ∧
    load_project ("proj".toList) scenarioTree ≠
      Except.ok [load_module ("proj/lib".toList)] :=
  ⟨by decide, by decide⟩

/-- Claim C1 (amended): for the scenario tree the scan returns exactly two
discovered modules, one at the scan root itself and one at `lib`, and none at
the cache path. -/
theorem scan_scenario_amended :
    (load_project ("proj".toList) scenarioTree).map (fun mods => mods.map PyModule.name) =
      Except.ok [("proj".toList), ("proj/lib".toList)] := by
  decide

/-- Claim C8: in any successful scan, no reported module path contains a
configured cache-folder name as a substring; consequently no walked directory
whose path contains a cache-folder name, nor anything at or below it (any
module path it is a prefix of), is ever reported. -/
theorem scanner_cache_exclusion (root : List Char) (t : FSTree) (mods : List PyModule)
    (h : load_project root t = Except.ok mods) :
    (∀ m ∈ mods, ∀ c ∈ CACHE_FOLDERS, pySubstr c m.name = false) ∧
    (∀ pr ∈ FSTree.walk root t, ∀ c ∈ CACHE_FOLDERS, pySubstr c pr.1 = true →
      ∀ m ∈ mods, isPrefixList pr.1 m.name = false) := by
  have hmods : mods = ((FSTree.walk root t).filter scanKeep).map (fun pr => load_module pr.1) := by
    unfold load_project at h
    split at h
    · injection h with h2
      exact h2.symm
    · exact Except.noConfusion h
  have h1 : ∀ m ∈ mods, ∀ c ∈ CACHE_FOLDERS, pySubstr c m.name = false := by
    intro m hm c hc
    rw [hmods] at hm
    obtain ⟨pr, hpr, hload⟩ := List.mem_map.mp hm
    have hkeep := (List.mem_filter.mp hpr).2
    unfold scanKeep at hkeep
    have hnone := ((Bool.and_eq_true _ _).mp hkeep).1
    rw [Bool.not_eq_true'] at hnone
    have hname : m.name = pr.1 := by rw [← hload]; rfl
    rw [hname]
    cases hb : pySubstr c pr.1 with
    | false => rfl
    | true =>
      exact absurd hnone (by
        rw [List.any_eq_true.mpr ⟨c, hc, hb⟩]
        decide)
  refine ⟨h1, ?_⟩
  intro pr hpr c hc hsub m hm
  cases hpre : isPrefixList pr.1 m.name with
  | false => rfl
  | true =>
    have habs : pySubstr c m.name = true := pySubstr_mono_of_prefix c pr.1 m.name hsub hpre
    rw [h1 m hm c hc] at habs
    exact Bool.noConfusion habs

/-- Witness for claim C8: on the scenario tree the reported module at
`proj/lib` does not contain the cache-folder name `.pytest_cache` in its
path. -/
theorem scanner_cache_exclusion_witness :
    pySubstr (".pytest_cache".toList) ((load_module ("proj/lib".toList)).name) = false :=
  (scanner_cache_exclusion ("proj".toList) scenarioTree
      [load_module ("proj".toList), load_module ("proj/lib".toList)] (by decide)).1
    (load_module ("proj/lib".toList)) (by decide) (".pytest_cache".toList) (by decide)

/-- Claim C9 counterexample: a registered spec claims the `README.md` marker
file, yet the module the scanner builds for a qualifying path carries no
resolved `LanguageSpecs` at all (its `language_specs` is `None`, not that
spec), because `load_module` never consults the registry. -/
theorem load_module_ignores_registry_counterexample :
    ("README.md".toList) ∈ readmeSpec.project_files ∧
    (load_module ("proj/lib".toList)).language_specs = none ∧
    (load_module ("proj/lib".toList)).language_specs ≠ some readmeSpec :=
  ⟨by decide, rfl, by decide⟩

/-- Claim C9 (amended): every qualifying path of a successful scan is
materialized as a Module whose name and language are both the path itself and
whose `language_specs` is `None`; no marker-file lookup is performed and no
spec loader is invoked, but no qualifying path is dropped. -/
theorem scanner_module_construction (root : List Char) (t : FSTree) (mods : List PyModule)
    (h : load_project root t = Except.ok mods) :
    mods = ((FSTree.walk root t).filter scanKeep).map
      (fun pr =>
        { name := pr.1, language := pr.1, language_specs := none,
          project_files := [], dependencies := [] }) := by
  unfold load_project at h
  split at h
  · injection h with h2
    exact h2.symm
  · exact Except.noConfusion h

/-- Witness for claim C9: the amended construction law evaluated on the
scenario tree. -/
theorem scanner_module_construction_witness :
    [load_module ("proj".toList), load_module ("proj/lib".toList)] =
      ((FSTree.walk ("proj".toList) scenarioTree).filter scanKeep).map
        (fun pr =>
          ({ name := pr.1, language := pr.1, language_specs := none,
             project_files := [], dependencies := [] } : PyModule)) :=
  scanner_module_construction ("proj".toList) scenarioTree
    [load_module ("proj".toList), load_module ("proj/lib".toList)] (by decide)

/-- Vendor used by the Dependency serialization scenario. -/
def pypiVendor : Vendor :=
  { _name := "pypi".toList, _version := "0.0.1".toList, _is_secure := "yes".toList,
    _login_method := "token".toList,
    _credentials := [(("login".toList), []), (("password".toList), []), (("token".toList), [])] }

/-- Concrete dependency used by the serialization scenario. -/
def requestsDep : Dependency :=
  { name := "requests".toList, version := "2.31.0".toList, vendor := pypiVendor,
    license := "Apache-2.0".toList, machine_name := "requests".toList, description := [] }

/-- Claim C2 (code bug): serializing a Dependency raises `TypeError` instead
of producing the canonical JSON object, because `to_json` passes the `Vendor`
object itself as the value of the `version` key and a `Vendor` is not JSON
serializable; no shape is produced and no field can be re-read. -/
theorem dependency_to_json_raises_type_error :
    requestsDep.to_json =
      Except.error (PyError.typeError ("Object of type Vendor is not JSON serializable".toList)) :=
  rfl

/-- Manifest entry whose descriptor file is absent in the damaged-plugin
scenario. -/
def rustEntry : PluginEntry :=
  { name := "rust".toList, version := "0.1.0".toList, vendor := "crates".toList,
    timestamp := "2024-01-01".toList }

/-- Claim C3 (code bug): loading a manifest that lists one plugin whose
descriptor file is absent does not produce a damaged-plugin report and
continue; the `FileNotFoundError` handler immediately executes
`data.pop(plugin)` with the unhashable plugin dict as key, so the whole load
aborts with `TypeError`. -/
theorem damaged_plugin_aborts_load :
    AppResources.init cfgHome (fun _ => none)
      { _languages := [], _plugin_vendor := [] } [rustEntry] =
      Except.error (PyError.typeError ("unhashable type: dict".toList)) :=
  rfl

/-- Claim C4 (code bug): every `create_text_link` call fails construction with
the missing-target `ValueError`: the convenience constructor stores the link
target under the key `to`, while the construction-time validation it routes
through requires the key `target`; this holds even for the concrete call with
text `Home` and target `https://example.com`. -/
theorem create_text_link_always_raises (cfg : AppConfig) (idv : Nat)
    (text to_arg : List Char) (as_class as_text : Bool) :
    DocumentCell.create_text_link cfg idv text to_arg as_class as_text =
      Except.error (PyError.valueError targetErrMsg) :=
  rfl

/-- Language spec whose stored name is capitalized. -/
def pythonSpec : LanguageSpecs :=
  { language_name := "Python".toList, file_extensions := [(".py".toList)],
    comments := [("#".toList)], is_docs_after_func := false,
    project_files := [("requirements.txt".toList)], vendors_API := [] }

/-- Second language spec, for registration-order scenarios. -/
def rustSpec : LanguageSpecs :=
  { language_name := "Rust".toList, file_extensions := [(".rs".toList)],
    comments := [("//".toList)], is_docs_after_func := false,
    project_files := [("Cargo.toml".toList)], vendors_API := [] }

/-- Claim C5 counterexample: with the single registered name `Python`, the
membership test answers `true` for the lowercase query `python` but `false`
for the query `Python`, so it does not give the same answer for every
capitalization of the same name. -/
theorem is_language_exists_query_case_counterexample :
    AppResources.is_language_exists { _languages := [pythonSpec], _plugin_vendor := [] }
      ("python".toList) = true ∧
    AppResources.is_language_exists { _languages := [pythonSpec], _plugin_vendor := [] }
      ("Python".toList) = false :=
  ⟨by decide, by decide⟩

/-- Claim C5 (amended): the membership test compares the query against the
lowercased registered names, so its answer is independent of the registration
order (invariant under any permutation of the catalog) and insensitive to the
capitalization of the registered names, but the query itself is matched
case-sensitively: it answers `true` exactly when the query literally occurs
among the lowercased names. -/
theorem is_language_exists_amended (r1 r2 : AppResources) (lang : List Char)
    (h : r1._languages.Perm r2._languages) :
    r1.is_language_exists lang = r2.is_language_exists lang ∧
    (r1.is_language_exists lang = true ↔
      lang ∈ r1._languages.map (fun s => pyLower s.language_name)) := by
  constructor
  · unfold AppResources.is_language_exists AppResources.get_all_languages
    exact decide_eq_decide.mpr (List.Perm.mem_iff (h.map _))
  · unfold AppResources.is_language_exists AppResources.get_all_languages
    exact decide_eq_true_iff

/-- Witness for claim C5: the amended law evaluated on a two-spec registry
and its reversal. -/
theorem is_language_exists_amended_witness :
    (AppResources.is_language_exists { _languages := [pythonSpec, rustSpec], _plugin_vendor := [] }
        ("rust".toList) =
      AppResources.is_language_exists { _languages := [rustSpec, pythonSpec], _plugin_vendor := [] }
        ("rust".toList)) ∧
    (AppResources.is_language_exists { _languages := [pythonSpec, rustSpec], _plugin_vendor := [] }
        ("rust".toList) = true ↔
      ("rust".toList) ∈ [pythonSpec, rustSpec].map (fun s => pyLower s.language_name)) :=
  is_language_exists_amended
    { _languages := [pythonSpec, rustSpec], _plugin_vendor := [] }
    { _languages := [rustSpec, pythonSpec], _plugin_vendor := [] }
    ("rust".toList) (by decide)

/-- Specs sharing one language name, used in the duplicate-name scenario. -/
def pySpecA : LanguageSpecs :=
  { language_name := "python".toList, file_extensions := [(".py".toList)],
    comments := [], is_docs_after_func := false, project_files := [], vendors_API := [] }

/-- Second spec with the same language name but different extensions. -/
def pySpecB : LanguageSpecs :=
  { language_name := "python".toList, file_extensions := [(".pyi".toList)],
    comments := [], is_docs_after_func := false, project_files := [], vendors_API := [] }

/-- Manifest entry for the first duplicate-name plugin. -/
def alphaEntry : PluginEntry :=
  { name := "alpha".toList, version := "0.0.1".toList, vendor := "local".toList,
    timestamp := "1".toList }

/-- Manifest entry for the second duplicate-name plugin. -/
def betaEntry : PluginEntry :=
  { name := "beta".toList, version := "0.0.2".toList, vendor := "local".toList,
    timestamp := "2".toList }

/-- Plugin files on disk for the duplicate-name scenario: two descriptor
files whose specs carry the same language name. -/
def dupFs : List Char → Option LanguageSpecs := fun path =>
  if path = pluginPath cfgHome.home_dir ("alpha".toList) then some pySpecA
  else if path = pluginPath cfgHome.home_dir ("beta".toList) then some pySpecB
  else none

/-- Claim C6 counterexample: loading two plugins whose specs share the
language name `python` yields a catalog with two distinct entries of the same
language name; the second load does not replace the first. -/
theorem duplicate_language_name_counterexample :
    AppResources.init cfgHome dupFs { _languages := [], _plugin_vendor := [] }
      [alphaEntry, betaEntry] =
      Except.ok { _languages := [pySpecA, pySpecB], _plugin_vendor := [] } ∧
    pySpecA.language_name = pySpecB.language_name ∧ pySpecA ≠ pySpecB :=
  ⟨by decide, by decide, by decide⟩

/-- Claim C6 (amended): when every listed descriptor file deserializes, plugin
loading appends each spec to the catalog in manifest order without any
deduplication: the catalog is the prior catalog followed by all loaded specs,
so a spec whose language name is already registered becomes an additional
entry rather than replacing the prior one. -/
theorem plugin_load_appends (cfg : AppConfig) (fs : List Char → Option LanguageSpecs)
    (r : AppResources) (plugins : List PluginEntry)
    (h : ∀ p ∈ plugins, (fs (pluginPath cfg.home_dir p.name)).isSome = true) :
    AppResources.init cfg fs r plugins =
      Except.ok { r with _languages :=
        r._languages ++ plugins.filterMap (fun p => fs (pluginPath cfg.home_dir p.name)) } := by
  induction plugins generalizing r with
  | nil => simp [AppResources.init]
  | cons p rest ih =>
    obtain ⟨s, hs⟩ := Option.isSome_iff_exists.mp (h p (List.mem_cons_self p rest))
    have hrest : ∀ q ∈ rest, (fs (pluginPath cfg.home_dir q.name)).isSome = true :=
      fun q hq => h q (List.mem_cons_of_mem p hq)
    simp only [AppResources.init, hs]
    rw [ih _ hrest]
    simp [hs, List.filterMap_cons, List.append_assoc]

/-- Witness for claim C6: the append law evaluated on the duplicate-name
scenario. -/
theorem plugin_load_appends_witness :
    AppResources.init cfgHome dupFs { _languages := [], _plugin_vendor := [] }
      [alphaEntry, betaEntry] =
      Except.ok { _languages := ([] : List LanguageSpecs) ++ [alphaEntry, betaEntry].filterMap (fun p => dupFs (pluginPath cfgHome.home_dir p.name)), _plugin_vendor := [] } :=
  plugin_load_appends cfgHome dupFs { _languages := [], _plugin_vendor := [] }
    [alphaEntry, betaEntry] (by decide)

/-- Successful dict access implies key membership. -/
theorem dictGetE_hasKey (d : List (List Char × PyValue)) (k : List Char) (v : PyValue)
    (h : dictGetE d k = Except.ok v) : hasKey d k = true := by
  unfold dictGetE at h
  unfold hasKey
  cases hf : d.find? (fun kv => kv.1 == k) with
  | none => rw [hf] at h; exact Except.noConfusion h
  | some kv =>
    have hp := List.find?_some hf
    exact List.any_eq_true.mpr ⟨kv, List.mem_of_find?_eq_some hf, hp⟩

/-- Claim C7: constructing an external-link cell whose string `target`
attribute does not start with `https` fails with the https-schema
`ValueError` when the force flag of the run configuration is off, and the
same input succeeds, yielding the cell unchanged, when that flag is set. -/
theorem external_link_https_gate (cfg : AppConfig) (text tgt : List Char)
    (d : List (List Char × PyValue)) (idv : Nat)
    (hget : dictGetE d ("target".toList) = Except.ok (PyValue.str tgt)) :
    (isPrefixList ("https".toList) tgt = false → cfg.force_install = false →
      DocumentCell.make cfg text d idv DocumentCellType.link_external =
        Except.error (PyError.valueError httpsErrMsg)) ∧
    (cfg.force_install = true →
      DocumentCell.make cfg text d idv DocumentCellType.link_external =
        Except.ok { raw_content := text, additional_content := d, id := idv,
                    type := DocumentCellType.link_external }) := by
  have hkey := dictGetE_hasKey d ("target".toList) (PyValue.str tgt) hget
  have hmake :
      DocumentCell.make cfg text d idv DocumentCellType.link_external =
        (if isPrefixList ("https".toList) tgt = false ∧ cfg.force_install = false
          then Except.error (PyError.valueError httpsErrMsg)
          else Except.ok { raw_content := text, additional_content := d, id := idv,
                           type := DocumentCellType.link_external }) := by
    unfold DocumentCell.make DocumentCell.post_init
    rw [hget]
    split
    · next hc => exact DocumentCellType.noConfusion hc.1
    · split
      · next hc => exact Bool.noConfusion (hkey.symm.trans hc.2)
      · rfl
  constructor
  · intro hsw hfi
    rw [hmake, if_pos ⟨hsw, hfi⟩]
  · intro hfi
    rw [hmake, if_neg (fun hc => Bool.noConfusion (hfi.symm.trans hc.2))]

/-- Witness for claim C7: the concrete target `http://example.com` is rejected
under the all-flags-off configuration and accepted unchanged under the
forced configuration. -/
theorem external_link_https_gate_witness :
    (DocumentCell.make cfgHome ("home".toList)
        [(("target".toList), PyValue.str ("http://example.com".toList))] 1
        DocumentCellType.link_external =
      Except.error (PyError.valueError httpsErrMsg)) ∧
    (DocumentCell.make cfgForce ("home".toList)
        [(("target".toList), PyValue.str ("http://example.com".toList))] 1
        DocumentCellType.link_external =
      Except.ok { raw_content := ("home".toList),
                  additional_content := [(("target".toList), PyValue.str ("http://example.com".toList))],
                  id := 1, type := DocumentCellType.link_external }) :=
  ⟨(external_link_https_gate cfgHome ("home".toList) ("http://example.com".toList)
      [(("target".toList), PyValue.str ("http://example.com".toList))] 1 rfl).1 (by decide) rfl,
   (external_link_https_gate cfgForce ("home".toList) ("http://example.com".toList)
      [(("target".toList), PyValue.str ("http://example.com".toList))] 1 rfl).2 rfl⟩

/-- Local vendor with no registered search paths. -/
def emptyLocalVendor : LocalVendor :=
  { _name := "local".toList, _version := "0.0.1".toList, _is_secure := "yes".toList,
    _login_method := [],
    _credentials := [(("login".toList), []), (("password".toList), []), (("token".toList), [])],
    _locations := [] }

/-- Claim C10: a Local vendor with no registered search paths resolves every
`find` query, with or without a version constraint, to `none`; the search is a
total function, so no error is ever raised. -/
theorem local_vendor_no_paths_find_none (v : LocalVendor)
    (installed : List Char → List Dependency) (name : List Char)
    (version : Option (List Char)) (h : v._locations = []) :
    LocalVendor.find v installed name version = none := by
  unfold LocalVendor.find
  rw [h]
  rfl

/-- Witness for claim C10: the concrete empty-location vendor answers `none`
for the query `requests` without a version pin. -/
theorem local_vendor_no_paths_find_none_witness :
    LocalVendor.find emptyLocalVendor (fun _ => []) ("requests".toList) none = none :=
  local_vendor_no_paths_find_none emptyLocalVendor (fun _ => []) ("requests".toList) none rfl


